import Mathlib

set_option maxRecDepth 40000

/-!
Verification of the module-resolution core of GridPath
(`gridpath/auxiliary/module_list.py`).

The Python source is embedded shallowly:

* `all_modules_list`, `optional_modules_list`, `cross_feature_modules_list`
  and `feature_shared_modules_list` transcribe the literal catalog data
  (Python dicts become association lists in insertion order).
* Python's `list.remove` (first occurrence removed, `ValueError` when the
  element is absent) becomes `removeFirst`, returning `none` on the error.
* `determine_modules` and `load_modules` follow the source control flow;
  fatal exits (`raise IOError`, `sys.exit(1)`, uncaught `ValueError`)
  become `Except.error` values.
* The helper `check_for_integer_subdirectories` and the `features.csv`
  read are external effects; they enter as function parameters
  (`probe`, `probeStages`, `readFeaturesCsv`), so theorems quantify over
  every possible filesystem answer.
-/

def all_modules_list : List String :=
  [ "temporal.operations.timepoints",
    "temporal.operations.horizons",
    "temporal.investment.periods",
    "geography.load_zones",
    "geography.load_following_up_balancing_areas",
    "geography.load_following_down_balancing_areas",
    "geography.regulation_up_balancing_areas",
    "geography.regulation_down_balancing_areas",
    "geography.frequency_response_balancing_areas",
    "geography.spinning_reserves_balancing_areas",
    "geography.energy_target_zones",
    "geography.carbon_cap_zones",
    "geography.carbon_tax_zones",
    "geography.prm_zones",
    "geography.local_capacity_zones",
    "geography.markets",
    "system.load_balance.static_load_requirement",
    "system.reserves.requirement.lf_reserves_up",
    "system.reserves.requirement.lf_reserves_down",
    "system.reserves.requirement.regulation_up",
    "system.reserves.requirement.regulation_down",
    "system.reserves.requirement.frequency_response",
    "system.reserves.requirement.spinning_reserves",
    "system.policy.energy_targets.period_energy_target",
    "system.policy.energy_targets.horizon_energy_target",
    "system.policy.carbon_cap.carbon_cap",
    "system.policy.carbon_tax.carbon_tax",
    "system.reliability.prm.prm_requirement",
    "system.reliability.local_capacity.local_capacity_requirement",
    "system.markets.prices",
    "project",
    "project.capacity",
    "project.capacity.capacity_types",
    "project.capacity.capacity",
    "project.capacity.capacity_groups",
    "project.capacity.costs",
    "project.availability.availability",
    "project.fuels",
    "project.operations",
    "project.operations.reserves.lf_reserves_up",
    "project.operations.reserves.lf_reserves_down",
    "project.operations.reserves.regulation_up",
    "project.operations.reserves.regulation_down",
    "project.operations.reserves.frequency_response",
    "project.operations.reserves.spinning_reserves",
    "project.operations.operational_types",
    "project.operations.reserves.op_type_dependent.lf_reserves_up",
    "project.operations.reserves.op_type_dependent.lf_reserves_down",
    "project.operations.reserves.op_type_dependent.regulation_up",
    "project.operations.reserves.op_type_dependent.regulation_down",
    "project.operations.reserves.op_type_dependent.frequency_response",
    "project.operations.reserves.op_type_dependent.spinning_reserves",
    "project.operations.power",
    "project.operations.fix_commitment",
    "project.operations.fuel_burn",
    "project.operations.costs",
    "project.operations.tuning_costs",
    "project.operations.energy_target_contributions",
    "project.operations.carbon_emissions",
    "project.operations.carbon_cap",
    "project.operations.carbon_tax",
    "project.reliability.prm",
    "project.reliability.prm.prm_types",
    "project.reliability.prm.prm_simple",
    "project.reliability.prm.elcc_surface",
    "project.reliability.prm.group_costs",
    "project.reliability.local_capacity",
    "project.reliability.local_capacity.local_capacity_contribution",
    "transmission",
    "transmission.capacity.capacity_types",
    "transmission.capacity.capacity",
    "transmission.operations.operational_types",
    "transmission.operations.operations",
    "transmission.operations.hurdle_costs",
    "transmission.operations.simultaneous_flow_limits",
    "transmission.operations.carbon_emissions",
    "system.load_balance.aggregate_project_power",
    "system.load_balance.aggregate_transmission_power",
    "transmission.operations.export_penalty_costs",
    "system.load_balance.market_participation",
    "system.load_balance.load_balance",
    "system.reserves.aggregation.lf_reserves_up",
    "system.reserves.aggregation.regulation_up",
    "system.reserves.aggregation.lf_reserves_down",
    "system.reserves.aggregation.regulation_down",
    "system.reserves.aggregation.frequency_response",
    "system.reserves.aggregation.spinning_reserves",
    "system.reserves.balance.lf_reserves_up",
    "system.reserves.balance.regulation_up",
    "system.reserves.balance.lf_reserves_down",
    "system.reserves.balance.regulation_down",
    "system.reserves.balance.frequency_response",
    "system.reserves.balance.spinning_reserves",
    "system.policy.energy_targets.aggregate_period_energy_target_contributions",
    "system.policy.energy_targets.aggregate_horizon_energy_target_contributions",
    "system.policy.energy_targets.period_energy_target_balance",
    "system.policy.energy_targets.horizon_energy_target_balance",
    "system.policy.carbon_cap.aggregate_project_carbon_emissions",
    "system.policy.carbon_cap.aggregate_transmission_carbon_emissions",
    "system.policy.carbon_cap.carbon_balance",
    "system.policy.carbon_tax.aggregate_project_carbon_emissions",
    "system.policy.carbon_tax.carbon_tax_costs",
    "system.reliability.prm.aggregate_project_simple_prm_contribution",
    "system.reliability.prm.elcc_surface",
    "system.reliability.prm.prm_balance",
    "system.reliability.local_capacity.aggregate_local_capacity_contribution",
    "system.reliability.local_capacity.local_capacity_balance",
    "system.markets.volume",
    "objective.project.aggregate_capacity_costs",
    "objective.project.aggregate_prm_group_costs",
    "objective.project.aggregate_operational_costs",
    "objective.project.aggregate_operational_tuning_costs",
    "objective.transmission.aggregate_capacity_costs",
    "objective.transmission.aggregate_hurdle_costs",
    "objective.transmission.aggregate_export_penalty_costs",
    "objective.transmission.carbon_imports_tuning_costs",
    "objective.system.aggregate_load_balance_penalties",
    "objective.system.reserve_violation_penalties.lf_reserves_up",
    "objective.system.reserve_violation_penalties.lf_reserves_down",
    "objective.system.reserve_violation_penalties.regulation_up",
    "objective.system.reserve_violation_penalties.regulation_down",
    "objective.system.reserve_violation_penalties.frequency_response",
    "objective.system.reserve_violation_penalties.spinning_reserves",
    "objective.system.policy.aggregate_period_energy_target_violation_penalties",
    "objective.system.policy.aggregate_horizon_energy_target_violation_penalties",
    "objective.system.policy.aggregate_carbon_cap_violation_penalties",
    "objective.system.policy.aggregate_carbon_tax_costs",
    "objective.system.reliability.prm.dynamic_elcc_tuning_penalties",
    "objective.system.reliability.prm.aggregate_prm_violation_penalties",
    "objective.system.reliability.local_capacity.aggregate_local_capacity_violation_penalties",
    "objective.system.aggregate_market_revenue_and_costs",
    "objective.max_npv" ]

def optional_modules_list : List (String × List String) :=
  [ ("transmission",
      [ "transmission",
        "transmission.capacity.capacity_types",
        "transmission.capacity.capacity",
        "transmission.operations.operational_types",
        "transmission.operations.operations",
        "system.load_balance.aggregate_transmission_power",
        "transmission.operations.export_penalty_costs",
        "objective.transmission.aggregate_capacity_costs",
        "objective.transmission.aggregate_export_penalty_costs" ]),
    ("lf_reserves_up",
      [ "geography.load_following_up_balancing_areas",
        "system.reserves.requirement.lf_reserves_up",
        "project.operations.reserves.lf_reserves_up",
        "project.operations.reserves.op_type_dependent.lf_reserves_up",
        "system.reserves.aggregation.lf_reserves_up",
        "system.reserves.balance.lf_reserves_up",
        "objective.system.reserve_violation_penalties.lf_reserves_up" ]),
    ("lf_reserves_down",
      [ "geography.load_following_down_balancing_areas",
        "system.reserves.requirement.lf_reserves_down",
        "project.operations.reserves.lf_reserves_down",
        "project.operations.reserves.op_type_dependent.lf_reserves_down",
        "system.reserves.aggregation.lf_reserves_down",
        "system.reserves.balance.lf_reserves_down",
        "objective.system.reserve_violation_penalties.lf_reserves_down" ]),
    ("regulation_up",
      [ "geography.regulation_up_balancing_areas",
        "system.reserves.requirement.regulation_up",
        "project.operations.reserves.regulation_up",
        "project.operations.reserves.op_type_dependent.regulation_up",
        "system.reserves.aggregation.regulation_up",
        "system.reserves.balance.regulation_up",
        "objective.system.reserve_violation_penalties.regulation_up" ]),
    ("regulation_down",
      [ "geography.regulation_down_balancing_areas",
        "system.reserves.requirement.regulation_down",
        "project.operations.reserves.regulation_down",
        "system.reserves.aggregation.regulation_down",
        "project.operations.reserves.op_type_dependent.regulation_down",
        "system.reserves.balance.regulation_down",
        "objective.system.reserve_violation_penalties.regulation_down" ]),
    ("frequency_response",
      [ "geography.frequency_response_balancing_areas",
        "system.reserves.requirement.frequency_response",
        "project.operations.reserves.frequency_response",
        "project.operations.reserves.op_type_dependent.frequency_response",
        "system.reserves.aggregation.frequency_response",
        "system.reserves.balance.frequency_response",
        "objective.system.reserve_violation_penalties.frequency_response" ]),
    ("spinning_reserves",
      [ "geography.spinning_reserves_balancing_areas",
        "system.reserves.requirement.spinning_reserves",
        "project.operations.reserves.spinning_reserves",
        "project.operations.reserves.op_type_dependent.spinning_reserves",
        "system.reserves.aggregation.spinning_reserves",
        "system.reserves.balance.spinning_reserves",
        "objective.system.reserve_violation_penalties.spinning_reserves" ]),
    ("period_energy_target",
      [ "system.policy.energy_targets.period_energy_target",
        "system.policy.energy_targets.aggregate_period_energy_target_contributions",
        "system.policy.energy_targets.period_energy_target_balance",
        "objective.system.policy.aggregate_period_energy_target_violation_penalties" ]),
    ("horizon_energy_target",
      [ "system.policy.energy_targets.horizon_energy_target",
        "system.policy.energy_targets.aggregate_horizon_energy_target_contributions",
        "system.policy.energy_targets.horizon_energy_target_balance",
        "objective.system.policy.aggregate_horizon_energy_target_violation_penalties" ]),
    ("carbon_cap",
      [ "geography.carbon_cap_zones",
        "system.policy.carbon_cap.carbon_cap",
        "project.operations.carbon_cap",
        "system.policy.carbon_cap.aggregate_project_carbon_emissions",
        "system.policy.carbon_cap.carbon_balance",
        "objective.system.policy.aggregate_carbon_cap_violation_penalties" ]),
    ("carbon_tax",
      [ "geography.carbon_tax_zones",
        "system.policy.carbon_tax.carbon_tax",
        "project.operations.carbon_tax",
        "system.policy.carbon_tax.aggregate_project_carbon_emissions",
        "system.policy.carbon_tax.carbon_tax_costs",
        "objective.system.policy.aggregate_carbon_tax_costs" ]),
    ("prm",
      [ "geography.prm_zones",
        "system.reliability.prm.prm_requirement",
        "project.reliability.prm",
        "project.reliability.prm.prm_types",
        "project.reliability.prm.prm_simple",
        "project.reliability.prm.group_costs",
        "system.reliability.prm.aggregate_project_simple_prm_contribution",
        "system.reliability.prm.prm_balance",
        "objective.project.aggregate_prm_group_costs",
        "objective.system.reliability.prm.aggregate_prm_violation_penalties" ]),
    ("local_capacity",
      [ "geography.local_capacity_zones",
        "system.reliability.local_capacity.local_capacity_requirement",
        "project.reliability.local_capacity",
        "project.reliability.local_capacity.local_capacity_contribution",
        "system.reliability.local_capacity.aggregate_local_capacity_contribution",
        "system.reliability.local_capacity.local_capacity_balance",
        "objective.system.reliability.local_capacity.aggregate_local_capacity_violation_penalties" ]),
    ("markets",
      [ "geography.markets",
        "system.markets.prices",
        "system.load_balance.market_participation",
        "system.markets.volume",
        "objective.system.aggregate_market_revenue_and_costs" ]),
    ("tuning",
      [ "project.operations.tuning_costs",
        "objective.project.aggregate_operational_tuning_costs" ]) ]

def cross_feature_modules_list : List (List String × List String) :=
  [ (["transmission", "transmission_hurdle_rates"],
      [ "transmission.operations.hurdle_costs",
        "objective.transmission.aggregate_hurdle_costs" ]),
    (["transmission", "carbon_cap", "track_carbon_imports"],
      [ "system.policy.carbon_cap.aggregate_transmission_carbon_emissions",
        "transmission.operations.carbon_emissions" ]),
    (["transmission", "carbon_cap", "track_carbon_imports", "tuning"],
      [ "objective.transmission.carbon_imports_tuning_costs" ]),
    (["transmission", "simultaneous_flow_limits"],
      [ "transmission.operations.simultaneous_flow_limits" ]),
    (["prm", "elcc_surface"],
      [ "project.reliability.prm.elcc_surface",
        "system.reliability.prm.elcc_surface" ]),
    (["prm", "elcc_surface", "tuning"],
      [ "objective.system.reliability.prm.dynamic_elcc_tuning_penalties" ]) ]

def feature_shared_modules_list : List (List String × List String) :=
  [ (["period_energy_target", "horizon_energy_target"],
      [ "geography.energy_target_zones",
        "project.operations.energy_target_contributions" ]) ]

/-- The module removed when a scenario is not multi-stage
(`project.operations.fix_commitment`). -/
def sentinelModule : String := "project.operations.fix_commitment"

/-- Fatal outcomes of `determine_modules`: the explicit `raise IOError` when
neither features nor a scenario directory is given, the `sys.exit(1)` when
`features.csv` cannot be read, and the uncaught `ValueError` raised by
`list.remove` on an absent element. -/
inductive GpError where
  | missingConfig : GpError
  | featuresFileNotFound : GpError
  | removeAbsent : String → GpError
deriving DecidableEq, Repr

/-- Python's `list.remove`: drop the first occurrence, error (`none`) when the
element is not in the list. -/
def removeFirst (l : List String) (m : String) : Option (List String) :=
  if m ∈ l then some (l.erase m) else none

/-- The inner loops `for m in ...: modules_to_use.remove(m)`: remove each id in
turn, failing fatally at the first id that is absent. -/
def removeMany : List String → List String → Except GpError (List String)
  | l, [] => Except.ok l
  | l, m :: ms =>
    match removeFirst l m with
    | some l1 => removeMany l1 ms
    | none => Except.error (GpError.removeAbsent m)

/-- One rule-scanning loop of `determine_modules`: for each rule, if its
feature condition holds do nothing, otherwise remove the rule's modules. -/
def applyRulePass {α : Type} (keep : α → Bool) :
    List (α × List String) → List String → Except GpError (List String)
  | [], l => Except.ok l
  | r :: rs, l =>
    if keep r.1 then applyRulePass keep rs l
    else
      match removeMany l r.2 with
      | Except.ok l1 => applyRulePass keep rs l1
      | Except.error e => Except.error e

/-- Modelled from the spec: `check_for_integer_subdirectories` (imported by
`module_list.py` but not part of the sources here) reports the integer-named
immediate subdirectories of a directory, and reports `[]` when there are none
or the directory does not exist. The probe enters the embedding as the
parameters `probe` (subproblems of the scenario directory, which may be
absent, hence `Option String`) and `probeStages` (stage subdirectories of one
subproblem). This definition packages the source's derivation of the
effective multi-stage flag from those answers. -/
def effectiveMultiStage (multi_stage : Option Bool) (scenario_directory : Option String)
    (probe : Option String → List String)
    (probeStages : Option String → String → List String) : Bool :=
  match multi_stage with
  | some b => b
  | none =>
    (probe scenario_directory).any
      (fun sp => !(probeStages scenario_directory sp).isEmpty)

/-- The `multi_stage` block of `determine_modules`: when the flag is
unspecified, probe the scenario directory for subproblem directories and each
subproblem for stage directories (the `for ... else` removes
`fix_commitment` exactly when no subproblem has stages); when the flag is
`False`, remove `fix_commitment`; when `True`, keep the list unchanged. -/
def fixCommitmentStep (scenario_directory : Option String) (multi_stage : Option Bool)
    (probe : Option String → List String)
    (probeStages : Option String → String → List String) :
    Except GpError (List String) :=
  match multi_stage with
  | none =>
    let subproblems := probe scenario_directory
    if subproblems.isEmpty then
      removeMany all_modules_list [sentinelModule]
    else if subproblems.any (fun sp => !(probeStages scenario_directory sp).isEmpty) then
      Except.ok all_modules_list
    else
      removeMany all_modules_list [sentinelModule]
  | some false => removeMany all_modules_list [sentinelModule]
  | some true => Except.ok all_modules_list

/-- The body of `determine_modules` once `requested_features` is known: start
from `all_modules_list`, apply the multi-stage step, then the
optional-feature loop, the shared-feature loop, and the cross-feature loop,
in the source's order. -/
def determineModulesFromFeatures (requested_features : List String)
    (scenario_directory : Option String) (multi_stage : Option Bool)
    (probe : Option String → List String)
    (probeStages : Option String → String → List String) :
    Except GpError (List String) := do
  let l1 ← fixCommitmentStep scenario_directory multi_stage probe probeStages
  let l2 ← applyRulePass (fun f => requested_features.contains f) optional_modules_list l1
  let l3 ← applyRulePass (fun g => g.any (fun f => requested_features.contains f))
      feature_shared_modules_list l2
  applyRulePass (fun g => g.all (fun f => requested_features.contains f))
      cross_feature_modules_list l3

/-- `determine_modules`: resolve the requested features (explicit list takes
the `elif features is not None` branch; otherwise read `features.csv` through
`readFeaturesCsv`, `none` standing for the caught `IOError` and the
`sys.exit(1)` that follows), then resolve the module list. -/
def determine_modules (features : Option (List String)) (scenario_directory : Option String)
    (multi_stage : Option Bool)
    (readFeaturesCsv : String → Option (List String))
    (probe : Option String → List String)
    (probeStages : Option String → String → List String) :
    Except GpError (List String) :=
  match features, scenario_directory with
  | none, none => Except.error GpError.missingConfig
  | some f, _ =>
    determineModulesFromFeatures f scenario_directory multi_stage probe probeStages
  | none, some d =>
    match readFeaturesCsv d with
    | some fl => determineModulesFromFeatures fl scenario_directory multi_stage probe probeStages
    | none => Except.error GpError.featuresFileNotFound

/-- `load_modules`: import each module name in order, collecting the imported
units; an id with no importable unit (`ImportError`) aborts immediately,
reported with that id (`sys.exit(1)` after the error message naming it). -/
def load_modules {μ : Type} (importModule : String → Option μ) :
    List String → Except String (List μ)
  | [] => Except.ok []
  | m :: rest =>
    match importModule m with
    | some u => (load_modules importModule rest).map (fun loaded => u :: loaded)
    | none => Except.error m

/-! ## Generic lemmas about the removal loops -/

theorem removeFirst_eq_some {l l' : List String} {m : String} :
    removeFirst l m = some l' ↔ m ∈ l ∧ l' = l.erase m := by
  unfold removeFirst
  by_cases h : m ∈ l
  · simp [h, eq_comm]
  · simp [h]

theorem removeMany_sublist {ms l l' : List String}
    (h : removeMany l ms = Except.ok l') : List.Sublist l' l := by
  induction ms generalizing l with
  | nil =>
    simp only [removeMany] at h
    cases h
    exact List.Sublist.refl _
  | cons m ms ih =>
    rw [removeMany] at h
    cases hf : removeFirst l m with
    | none => rw [hf] at h; cases h
    | some l1 =>
      rw [hf] at h
      obtain ⟨-, rfl⟩ := removeFirst_eq_some.mp hf
      exact (ih h).trans (List.erase_sublist m l)

theorem removeMany_mem_iff {ms l l' : List String} (hl : l.Nodup)
    (h : removeMany l ms = Except.ok l') (x : String) :
    x ∈ l' ↔ x ∈ l ∧ x ∉ ms := by
  induction ms generalizing l with
  | nil =>
    simp only [removeMany] at h
    cases h
    simp
  | cons m ms ih =>
    rw [removeMany] at h
    cases hf : removeFirst l m with
    | none => rw [hf] at h; cases h
    | some l1 =>
      rw [hf] at h
      obtain ⟨hm, rfl⟩ := removeFirst_eq_some.mp hf
      rw [ih (hl.erase m) h, hl.mem_erase_iff, List.mem_cons]
      constructor
      · rintro ⟨⟨hxm, hxl⟩, hxms⟩
        exact ⟨hxl, by rintro (rfl | hms) <;> [exact hxm rfl; exact hxms hms]⟩
      · rintro ⟨hxl, hnot⟩
        exact ⟨⟨fun hxm => hnot (Or.inl hxm), hxl⟩, fun hms => hnot (Or.inr hms)⟩

theorem removeMany_ok {ms l : List String} (hl : l.Nodup) (hnd : ms.Nodup)
    (hsub : ∀ x ∈ ms, x ∈ l) : ∃ l', removeMany l ms = Except.ok l' := by
  induction ms generalizing l with
  | nil => exact ⟨l, rfl⟩
  | cons m ms ih =>
    have hm : m ∈ l := hsub m (List.mem_cons_self m ms)
    have hf : removeFirst l m = some (l.erase m) := removeFirst_eq_some.mpr ⟨hm, rfl⟩
    rw [removeMany, hf]
    apply ih (hl.erase m) (List.Nodup.of_cons hnd)
    intro x hx
    have hxm : x ≠ m := by
      rintro rfl
      exact (List.nodup_cons.mp hnd).1 hx
    exact (List.mem_erase_of_ne hxm).mpr (hsub x (List.mem_cons_of_mem m hx))

theorem removeMany_append {l l1 : List String} {ms1 : List String}
    (h : removeMany l ms1 = Except.ok l1) (ms2 : List String) :
    removeMany l (ms1 ++ ms2) = removeMany l1 ms2 := by
  induction ms1 generalizing l with
  | nil =>
    simp only [removeMany] at h
    cases h
    simp
  | cons m ms ih =>
    rw [removeMany] at h
    rw [List.cons_append, removeMany]
    cases hf : removeFirst l m with
    | none => rw [hf] at h; cases h
    | some l2 =>
      rw [hf] at h
      exact ih h

/-! ## Generic lemmas about the rule-scanning passes -/

theorem applyRulePass_sublist {α : Type} {keep : α → Bool}
    {rules : List (α × List String)} {l l' : List String}
    (h : applyRulePass keep rules l = Except.ok l') : List.Sublist l' l := by
  induction rules generalizing l with
  | nil =>
    simp only [applyRulePass] at h
    cases h
    exact List.Sublist.refl _
  | cons r rs ih =>
    rw [applyRulePass] at h
    by_cases hk : keep r.1
    · rw [if_pos hk] at h
      exact ih h
    · rw [if_neg hk] at h
      cases hr : removeMany l r.2 with
      | error e => rw [hr] at h; cases h
      | ok l1 =>
        rw [hr] at h
        exact (ih h).trans (removeMany_sublist hr)

theorem applyRulePass_mem_iff {α : Type} {keep : α → Bool}
    {rules : List (α × List String)} {l l' : List String} (hl : l.Nodup)
    (h : applyRulePass keep rules l = Except.ok l') (x : String) :
    x ∈ l' ↔ x ∈ l ∧ ∀ r ∈ rules, keep r.1 = false → x ∉ r.2 := by
  induction rules generalizing l with
  | nil =>
    simp only [applyRulePass] at h
    cases h
    simp
  | cons r rs ih =>
    rw [applyRulePass] at h
    by_cases hk : keep r.1
    · rw [if_pos hk] at h
      rw [ih hl h]
      simp only [List.forall_mem_cons, hk]
      constructor
      · rintro ⟨hxl, hrs⟩
        exact ⟨hxl, fun hfalse => by simp at hfalse, hrs⟩
      · rintro ⟨hxl, -, hrs⟩
        exact ⟨hxl, hrs⟩
    · rw [if_neg hk] at h
      cases hr : removeMany l r.2 with
      | error e => rw [hr] at h; cases h
      | ok l1 =>
        rw [hr] at h
        have hn1 : l1.Nodup := hl.sublist (removeMany_sublist hr)
        rw [ih hn1 h, removeMany_mem_iff hl hr]
        simp only [List.forall_mem_cons]
        constructor
        · rintro ⟨⟨hxl, hxr⟩, hrs⟩
          exact ⟨hxl, fun _ => hxr, hrs⟩
        · rintro ⟨hxl, hhead, hrs⟩
          exact ⟨⟨hxl, hhead (by simp [hk])⟩, hrs⟩

theorem applyRulePass_ok {α : Type} {keep : α → Bool}
    {rules : List (α × List String)} {l : List String} (hl : l.Nodup)
    (hwf : ∀ r ∈ rules, r.2.Nodup ∧ ∀ x ∈ r.2, x ∈ l)
    (hdisj : List.Pairwise (fun r s => ∀ x ∈ r.2, x ∉ s.2) rules) :
    ∃ l', applyRulePass keep rules l = Except.ok l' := by
  induction rules generalizing l with
  | nil => exact ⟨l, rfl⟩
  | cons r rs ih =>
    rw [applyRulePass]
    obtain ⟨hdhead, hdrest⟩ := List.pairwise_cons.mp hdisj
    by_cases hk : keep r.1
    · rw [if_pos hk]
      exact ih hl (fun s hs => hwf s (List.mem_cons_of_mem r hs)) hdrest
    · rw [if_neg hk]
      obtain ⟨hnd, hsub⟩ := hwf r (List.mem_cons_self r rs)
      obtain ⟨l1, hr⟩ := removeMany_ok hl hnd hsub
      rw [hr]
      apply ih (hl.sublist (removeMany_sublist hr))
      · intro s hs
        refine ⟨(hwf s (List.mem_cons_of_mem r hs)).1, fun x hx => ?_⟩
        rw [removeMany_mem_iff hl hr]
        refine ⟨(hwf s (List.mem_cons_of_mem r hs)).2 x hx, fun hxr => ?_⟩
        exact hdhead s hs x hxr hx
      · exact hdrest

/-! ## Concrete facts about the catalog, by computation -/

theorem all_modules_nodup : all_modules_list.Nodup := by decide

theorem sentinel_mem_all : sentinelModule ∈ all_modules_list := by decide

theorem optional_wf : ∀ r ∈ optional_modules_list,
    r.2.Nodup ∧ ∀ x ∈ r.2, x ∈ all_modules_list ∧ x ≠ sentinelModule := by decide

theorem optional_pairwise :
    List.Pairwise (fun r s => ∀ x ∈ r.2, x ∉ s.2) optional_modules_list := by decide

theorem shared_wf : ∀ r ∈ feature_shared_modules_list,
    r.2.Nodup ∧ ∀ x ∈ r.2, x ∈ all_modules_list ∧ x ≠ sentinelModule := by decide

theorem shared_pairwise :
    List.Pairwise (fun r s => ∀ x ∈ r.2, x ∉ s.2) feature_shared_modules_list := by decide

theorem cross_wf : ∀ r ∈ cross_feature_modules_list,
    r.2.Nodup ∧ ∀ x ∈ r.2, x ∈ all_modules_list ∧ x ≠ sentinelModule := by decide

theorem cross_pairwise :
    List.Pairwise (fun r s => ∀ x ∈ r.2, x ∉ s.2) cross_feature_modules_list := by decide

theorem shared_disjoint_optional : ∀ r ∈ feature_shared_modules_list,
    ∀ x ∈ r.2, ∀ q ∈ optional_modules_list, x ∉ q.2 := by decide

theorem cross_disjoint_optional : ∀ r ∈ cross_feature_modules_list,
    ∀ x ∈ r.2, ∀ q ∈ optional_modules_list, x ∉ q.2 := by decide

theorem cross_disjoint_shared : ∀ r ∈ cross_feature_modules_list,
    ∀ x ∈ r.2, ∀ q ∈ feature_shared_modules_list, x ∉ q.2 := by decide

theorem shared_unique : ∀ r ∈ feature_shared_modules_list, ∀ x ∈ r.2,
    ∀ q ∈ feature_shared_modules_list, x ∈ q.2 → q = r := by decide

theorem cross_unique : ∀ r ∈ cross_feature_modules_list, ∀ x ∈ r.2,
    ∀ q ∈ cross_feature_modules_list, x ∈ q.2 → q = r := by decide

/-! ## Characterization of the resolution pipeline -/

theorem cond_flip {P : Prop} {b : Bool} : (b = false → ¬P) ↔ (P → b = true) := by
  cases b <;> simp

theorem removeMany_sentinel :
    removeMany all_modules_list [sentinelModule] =
      Except.ok (all_modules_list.erase sentinelModule) := by
  rw [removeMany, removeFirst_eq_some.mpr ⟨sentinel_mem_all, rfl⟩]
  rfl

theorem fixCommitmentStep_eq (sd : Option String) (ms : Option Bool)
    (probe : Option String → List String)
    (ps : Option String → String → List String) :
    fixCommitmentStep sd ms probe ps =
      Except.ok (if effectiveMultiStage ms sd probe ps then all_modules_list
                 else all_modules_list.erase sentinelModule) := by
  cases ms with
  | none =>
    rw [fixCommitmentStep, effectiveMultiStage]
    by_cases he : (probe sd).isEmpty
    · have ha : (probe sd).any (fun sp => !(ps sd sp).isEmpty) = false := by
        rcases List.isEmpty_iff.mp he with h
        rw [h]
        rfl
      rw [if_pos he, ha, if_neg (by simp), removeMany_sentinel]
    · rw [if_neg he]
      by_cases ha : (probe sd).any (fun sp => !(ps sd sp).isEmpty) = true
      · rw [if_pos ha, ha, if_pos rfl]
      · have ha' : (probe sd).any (fun sp => !(ps sd sp).isEmpty) = false :=
          Bool.eq_false_iff.mpr ha
        rw [if_neg ha, ha', if_neg (by simp), removeMany_sentinel]
  | some b =>
    cases b with
    | false => rw [fixCommitmentStep, effectiveMultiStage, if_neg (by simp), removeMany_sentinel]
    | true => rw [fixCommitmentStep, effectiveMultiStage, if_pos rfl]

theorem step_mem (eff : Bool) (x : String) :
    (x ∈ if eff then all_modules_list else all_modules_list.erase sentinelModule) ↔
      (x ∈ all_modules_list ∧ (x = sentinelModule → eff = true)) := by
  cases eff with
  | true => simp
  | false =>
    rw [if_neg (by simp), all_modules_nodup.mem_erase_iff]
    constructor
    · rintro ⟨hne, hmem⟩
      exact ⟨hmem, fun hx => absurd hx hne⟩
    · rintro ⟨hmem, himp⟩
      exact ⟨fun hx => (Bool.false_ne_true (himp hx)).elim, hmem⟩

theorem determineModulesFromFeatures_spec (F : List String) (sd : Option String)
    (ms : Option Bool) (probe : Option String → List String)
    (ps : Option String → String → List String) :
    ∃ l, determineModulesFromFeatures F sd ms probe ps = Except.ok l ∧
      l.Nodup ∧ List.Sublist l all_modules_list ∧
      ∀ x, x ∈ l ↔
        x ∈ all_modules_list ∧
        (x = sentinelModule → effectiveMultiStage ms sd probe ps = true) ∧
        (∀ r ∈ optional_modules_list, x ∈ r.2 → F.contains r.1 = true) ∧
        (∀ r ∈ feature_shared_modules_list, x ∈ r.2 →
          r.1.any (fun f => F.contains f) = true) ∧
        (∀ r ∈ cross_feature_modules_list, x ∈ r.2 →
          r.1.all (fun f => F.contains f) = true) := by
  have hstep : fixCommitmentStep sd ms probe ps =
      Except.ok (if effectiveMultiStage ms sd probe ps then all_modules_list
                 else all_modules_list.erase sentinelModule) :=
    fixCommitmentStep_eq sd ms probe ps
  set eff := effectiveMultiStage ms sd probe ps with heff
  set l1 := if eff then all_modules_list else all_modules_list.erase sentinelModule with hl1
  have hl1nd : l1.Nodup := by
    rw [hl1]
    cases eff
    · exact all_modules_nodup.erase sentinelModule
    · exact all_modules_nodup
  have hl1mem : ∀ x, x ∈ l1 ↔ x ∈ all_modules_list ∧ (x = sentinelModule → eff = true) :=
    step_mem eff
  have hl1sub : List.Sublist l1 all_modules_list := by
    rw [hl1]
    cases eff
    · exact List.erase_sublist sentinelModule all_modules_list
    · exact List.Sublist.refl _
  have hwf2 : ∀ r ∈ optional_modules_list, r.2.Nodup ∧ ∀ x ∈ r.2, x ∈ l1 := by
    intro r hr
    obtain ⟨hnd, hmem⟩ := optional_wf r hr
    refine ⟨hnd, fun x hx => ?_⟩
    obtain ⟨hall, hne⟩ := hmem x hx
    exact (hl1mem x).mpr ⟨hall, fun h => absurd h hne⟩
  obtain ⟨l2, hp2⟩ := applyRulePass_ok hl1nd hwf2 optional_pairwise
  have hl2nd : l2.Nodup := hl1nd.sublist (applyRulePass_sublist hp2)
  have hl2mem := applyRulePass_mem_iff hl1nd hp2
  have hwf3 : ∀ r ∈ feature_shared_modules_list, r.2.Nodup ∧ ∀ x ∈ r.2, x ∈ l2 := by
    intro r hr
    obtain ⟨hnd, hmem⟩ := shared_wf r hr
    refine ⟨hnd, fun x hx => ?_⟩
    obtain ⟨hall, hne⟩ := hmem x hx
    refine (hl2mem x).mpr ⟨(hl1mem x).mpr ⟨hall, fun h => absurd h hne⟩, ?_⟩
    intro q hq _ hxq
    exact shared_disjoint_optional r hr x hx q hq hxq
  obtain ⟨l3, hp3⟩ := applyRulePass_ok hl2nd hwf3 shared_pairwise
  have hl3nd : l3.Nodup := hl2nd.sublist (applyRulePass_sublist hp3)
  have hl3mem := applyRulePass_mem_iff hl2nd hp3
  have hwf4 : ∀ r ∈ cross_feature_modules_list, r.2.Nodup ∧ ∀ x ∈ r.2, x ∈ l3 := by
    intro r hr
    obtain ⟨hnd, hmem⟩ := cross_wf r hr
    refine ⟨hnd, fun x hx => ?_⟩
    obtain ⟨hall, hne⟩ := hmem x hx
    refine (hl3mem x).mpr ⟨?_, ?_⟩
    · refine (hl2mem x).mpr ⟨(hl1mem x).mpr ⟨hall, fun h => absurd h hne⟩, ?_⟩
      intro q hq _ hxq
      exact cross_disjoint_optional r hr x hx q hq hxq
    · intro q hq _ hxq
      exact cross_disjoint_shared r hr x hx q hq hxq
  obtain ⟨l4, hp4⟩ := applyRulePass_ok hl3nd hwf4 cross_pairwise
  have hl4nd : l4.Nodup := hl3nd.sublist (applyRulePass_sublist hp4)
  have hl4mem := applyRulePass_mem_iff hl3nd hp4
  have hl4sub : List.Sublist l4 all_modules_list :=
    (((applyRulePass_sublist hp4).trans (applyRulePass_sublist hp3)).trans
      (applyRulePass_sublist hp2)).trans hl1sub
  refine ⟨l4, ?_, hl4nd, hl4sub, ?_⟩
  · show (do
      let a ← fixCommitmentStep sd ms probe ps
      let b ← applyRulePass (fun f => F.contains f) optional_modules_list a
      let c ← applyRulePass (fun g => g.any (fun f => F.contains f))
          feature_shared_modules_list b
      applyRulePass (fun g => g.all (fun f => F.contains f))
          cross_feature_modules_list c) = Except.ok l4
    rw [hstep]
    show (do
      let b ← applyRulePass (fun f => F.contains f) optional_modules_list l1
      let c ← applyRulePass (fun g => g.any (fun f => F.contains f))
          feature_shared_modules_list b
      applyRulePass (fun g => g.all (fun f => F.contains f))
          cross_feature_modules_list c) = Except.ok l4
    rw [hp2]
    show (do
      let c ← applyRulePass (fun g => g.any (fun f => F.contains f))
          feature_shared_modules_list l2
      applyRulePass (fun g => g.all (fun f => F.contains f))
          cross_feature_modules_list c) = Except.ok l4
    rw [hp3]
    show applyRulePass (fun g => g.all (fun f => F.contains f))
        cross_feature_modules_list l3 = Except.ok l4
    exact hp4
  · intro x
    rw [hl4mem x, hl3mem x, hl2mem x, hl1mem x]
    simp only [cond_flip]
    tauto

theorem optional_unique : ∀ r ∈ optional_modules_list, ∀ x ∈ r.2,
    ∀ q ∈ optional_modules_list, x ∈ q.2 → q = r := by decide

theorem cross_keys_ne_nil : ∀ r ∈ cross_feature_modules_list, r.1 ≠ [] := by decide

theorem shared_keys_ne_nil : ∀ r ∈ feature_shared_modules_list, r.1 ≠ [] := by decide

theorem contains_mem_iff {l : List String} {a : String} : l.contains a = true ↔ a ∈ l := by
  simp

/-- Any successful run of `determine_modules` went through
`determineModulesFromFeatures` on some feature list. -/
theorem determine_modules_ok_inv {features : Option (List String)} {sd : Option String}
    {ms : Option Bool} {read : String → Option (List String)}
    {probe : Option String → List String} {ps : Option String → String → List String}
    {l : List String}
    (h : determine_modules features sd ms read probe ps = Except.ok l) :
    ∃ F, determineModulesFromFeatures F sd ms probe ps = Except.ok l := by
  cases features with
  | some F => exact ⟨F, h⟩
  | none =>
    cases sd with
    | none => cases h
    | some d =>
      have h' : (match read d with
          | some fl => determineModulesFromFeatures fl (some d) ms probe ps
          | none => Except.error GpError.featuresFileNotFound) = Except.ok l := h
      cases hr : read d with
      | none => rw [hr] at h'; cases h'
      | some fl =>
        rw [hr] at h'
        exact ⟨fl, h'⟩

/-- Successful results of `determine_modules`, characterized: no duplicates,
canonical subsequence, and membership decided per module by the rule
conditions on some requested-feature list. -/
theorem determine_modules_ok_char {features : Option (List String)} {sd : Option String}
    {ms : Option Bool} {read : String → Option (List String)}
    {probe : Option String → List String} {ps : Option String → String → List String}
    {l : List String}
    (h : determine_modules features sd ms read probe ps = Except.ok l) :
    l.Nodup ∧ List.Sublist l all_modules_list ∧
    ∃ F : List String, ∀ x, x ∈ l ↔
      x ∈ all_modules_list ∧
      (x = sentinelModule → effectiveMultiStage ms sd probe ps = true) ∧
      (∀ r ∈ optional_modules_list, x ∈ r.2 → F.contains r.1 = true) ∧
      (∀ r ∈ feature_shared_modules_list, x ∈ r.2 →
        r.1.any (fun f => F.contains f) = true) ∧
      (∀ r ∈ cross_feature_modules_list, x ∈ r.2 →
        r.1.all (fun f => F.contains f) = true) := by
  obtain ⟨F, hF⟩ := determine_modules_ok_inv h
  obtain ⟨l', he, hnd, hsub, hmem⟩ := determineModulesFromFeatures_spec F sd ms probe ps
  rw [he] at hF
  injection hF with hF
  subst hF
  exact ⟨hnd, hsub, F, hmem⟩

/-! ## The claims -/

/-- A feature list requesting every feature named by any rule; with it, no
rule removes anything. -/
def fullFeatures : List String :=
  [ "transmission", "transmission_hurdle_rates", "track_carbon_imports",
    "simultaneous_flow_limits", "lf_reserves_up", "lf_reserves_down",
    "regulation_up", "regulation_down", "frequency_response",
    "spinning_reserves", "period_energy_target", "horizon_energy_target",
    "carbon_cap", "carbon_tax", "prm", "elcc_surface", "local_capacity",
    "markets", "tuning" ]

/-- Claim C1: for every requested-feature list, every multi-stage argument and
any layout-probe result, a list returned by `determine_modules` is a
subsequence of `all_modules_list`: every returned id appears in the canonical
list, the canonical relative order is kept, and there are no duplicates. -/
theorem claim_C1_result_subsequence (features : Option (List String))
    (sd : Option String) (ms : Option Bool) (read : String → Option (List String))
    (probe : Option String → List String) (ps : Option String → String → List String)
    (l : List String)
    (h : determine_modules features sd ms read probe ps = Except.ok l) :
    List.Sublist l all_modules_list ∧ l.Nodup := by
  obtain ⟨hnd, hsub, -⟩ := determine_modules_ok_char h
  exact ⟨hsub, hnd⟩

theorem claim_C1_witness :
    List.Sublist all_modules_list all_modules_list ∧ all_modules_list.Nodup :=
  claim_C1_result_subsequence (some fullFeatures) none (some true)
    (fun _ => none) (fun _ => []) (fun _ _ => []) all_modules_list rfl

/-- Claim C2: for every requested-feature list F, the modules of a
cross-feature rule are in `determine_modules`' result iff every feature of
the rule's tuple is in F, and the modules of a shared-feature rule are in the
result iff some feature of the tuple is in F. -/
theorem claim_C2_cross_and_shared_conditions (F : List String)
    (sd : Option String) (ms : Option Bool) (read : String → Option (List String))
    (probe : Option String → List String) (ps : Option String → String → List String)
    (l : List String)
    (h : determine_modules (some F) sd ms read probe ps = Except.ok l) :
    (∀ r ∈ cross_feature_modules_list, ∀ m ∈ r.2, (m ∈ l ↔ ∀ f ∈ r.1, f ∈ F)) ∧
    (∀ r ∈ feature_shared_modules_list, ∀ m ∈ r.2, (m ∈ l ↔ ∃ f ∈ r.1, f ∈ F)) := by
  obtain ⟨l', he, -, -, hmem⟩ := determineModulesFromFeatures_spec F sd ms probe ps
  have h2 : determineModulesFromFeatures F sd ms probe ps = Except.ok l := h
  rw [he] at h2
  injection h2 with h2
  subst h2
  constructor
  · intro r hr m hm
    rw [hmem m]
    constructor
    · rintro ⟨-, -, -, -, hcross⟩
      have := hcross r hr hm
      rw [List.all_eq_true] at this
      intro f hf
      exact contains_mem_iff.mp (this f hf)
    · intro hF
      obtain ⟨hall, hns⟩ := (cross_wf r hr).2 m hm
      refine ⟨hall, fun hx => absurd hx hns, ?_, ?_, ?_⟩
      · intro q hq hmq
        exact absurd hmq (cross_disjoint_optional r hr m hm q hq)
      · intro q hq hmq
        exact absurd hmq (cross_disjoint_shared r hr m hm q hq)
      · intro q hq hmq
        rw [cross_unique r hr m hm q hq hmq, List.all_eq_true]
        intro f hf
        exact contains_mem_iff.mpr (hF f hf)
  · intro r hr m hm
    rw [hmem m]
    constructor
    · rintro ⟨-, -, -, hshared, -⟩
      have := hshared r hr hm
      rw [List.any_eq_true] at this
      obtain ⟨f, hf, hc⟩ := this
      exact ⟨f, hf, contains_mem_iff.mp hc⟩
    · rintro ⟨f, hf, hfF⟩
      obtain ⟨hall, hns⟩ := (shared_wf r hr).2 m hm
      refine ⟨hall, fun hx => absurd hx hns, ?_, ?_, ?_⟩
      · intro q hq hmq
        exact absurd hmq (shared_disjoint_optional r hr m hm q hq)
      · intro q hq hmq
        rw [shared_unique r hr m hm q hq hmq, List.any_eq_true]
        exact ⟨f, hf, contains_mem_iff.mpr hfF⟩
      · intro q hq hmq
        exact absurd hm (cross_disjoint_shared q hq m hmq r hr)

theorem claim_C2_witness :
    (∀ r ∈ cross_feature_modules_list, ∀ m ∈ r.2,
      (m ∈ all_modules_list ↔ ∀ f ∈ r.1, f ∈ fullFeatures)) ∧
    (∀ r ∈ feature_shared_modules_list, ∀ m ∈ r.2,
      (m ∈ all_modules_list ↔ ∃ f ∈ r.1, f ∈ fullFeatures)) :=
  claim_C2_cross_and_shared_conditions fullFeatures none (some true)
    (fun _ => none) (fun _ => []) (fun _ _ => []) all_modules_list rfl

/-- Claim C3: with an empty requested-feature list and `multi_stage = False`,
`determine_modules` completes without error and its result contains no module
of any optional-feature, cross-feature or shared-feature rule, nor the
multi-stage sentinel `project.operations.fix_commitment`. -/
theorem claim_C3_empty_features_exclusions (sd : Option String)
    (read : String → Option (List String)) (probe : Option String → List String)
    (ps : Option String → String → List String) :
    ∃ l, determine_modules (some []) sd (some false) read probe ps = Except.ok l ∧
      sentinelModule ∉ l ∧
      (∀ r ∈ optional_modules_list, ∀ m ∈ r.2, m ∉ l) ∧
      (∀ r ∈ cross_feature_modules_list, ∀ m ∈ r.2, m ∉ l) ∧
      (∀ r ∈ feature_shared_modules_list, ∀ m ∈ r.2, m ∉ l) := by
  obtain ⟨l, he, -, -, hmem⟩ := determineModulesFromFeatures_spec [] sd (some false) probe ps
  refine ⟨l, he, ?_, ?_, ?_, ?_⟩
  · intro hs
    have hbad := ((hmem sentinelModule).mp hs).2.1 rfl
    rw [effectiveMultiStage] at hbad
    cases hbad
  · intro r hr m hm hml
    have := ((hmem m).mp hml).2.2.1 r hr hm
    cases this
  · intro r hr m hm hml
    have hall := ((hmem m).mp hml).2.2.2.2 r hr hm
    rw [List.all_eq_true] at hall
    obtain ⟨f, hf⟩ := List.exists_mem_of_ne_nil r.1 (cross_keys_ne_nil r hr)
    cases hall f hf
  · intro r hr m hm hml
    have hany := ((hmem m).mp hml).2.2.2.1 r hr hm
    rw [List.any_eq_true] at hany
    obtain ⟨f, -, hc⟩ := hany
    cases hc

theorem claim_C3_witness :
    ∃ l, determine_modules (some []) none (some false)
        (fun _ => none) (fun _ => []) (fun _ _ => []) = Except.ok l ∧
      sentinelModule ∉ l ∧
      (∀ r ∈ optional_modules_list, ∀ m ∈ r.2, m ∉ l) ∧
      (∀ r ∈ cross_feature_modules_list, ∀ m ∈ r.2, m ∉ l) ∧
      (∀ r ∈ feature_shared_modules_list, ∀ m ∈ r.2, m ∉ l) :=
  claim_C3_empty_features_exclusions none (fun _ => none) (fun _ => []) (fun _ _ => [])

/-- Claim C4: `determine_modules` keeps `project.operations.fix_commitment`
exactly when the effective multi-stage flag is true; with `multi_stage`
unspecified that flag is derived from the layout probe and is true iff some
probed subproblem subdirectory has a probed stage subdirectory. -/
theorem claim_C4_sentinel_iff_multistage (features : Option (List String))
    (sd : Option String) (ms : Option Bool) (read : String → Option (List String))
    (probe : Option String → List String) (ps : Option String → String → List String)
    (l : List String)
    (h : determine_modules features sd ms read probe ps = Except.ok l) :
    (sentinelModule ∈ l ↔ effectiveMultiStage ms sd probe ps = true) ∧
    (ms = none → effectiveMultiStage ms sd probe ps =
      (probe sd).any (fun sp => !(ps sd sp).isEmpty)) := by
  obtain ⟨-, -, F, hmem⟩ := determine_modules_ok_char h
  constructor
  · rw [hmem sentinelModule]
    constructor
    · rintro ⟨-, hs, -⟩
      exact hs rfl
    · intro he
      refine ⟨sentinel_mem_all, fun _ => he, ?_, ?_, ?_⟩
      · intro r hr hm
        exact absurd rfl ((optional_wf r hr).2 _ hm).2
      · intro r hr hm
        exact absurd rfl ((shared_wf r hr).2 _ hm).2
      · intro r hr hm
        exact absurd rfl ((cross_wf r hr).2 _ hm).2
  · rintro rfl
    rw [effectiveMultiStage]

theorem claim_C4_witness :
    ((sentinelModule ∈ all_modules_list ↔
      effectiveMultiStage (some true) none (fun _ => []) (fun _ _ => []) = true) ∧
    ((some true : Option Bool) = none →
      effectiveMultiStage (some true) none (fun _ => []) (fun _ _ => []) =
        (([] : List String)).any (fun _ => !(([] : List String)).isEmpty))) :=
  claim_C4_sentinel_iff_multistage (some fullFeatures) none (some true)
    (fun _ => none) (fun _ => []) (fun _ _ => []) all_modules_list rfl

/-- Claim C5: whenever a removal loop reaches a module id that is not in the
working list, the run fails with the fatal error carrying that id — it is
never a silent no-op. -/
theorem claim_C5_absent_removal_fatal (l ms1 ms2 : List String) (m : String)
    (l1 : List String) (h : removeMany l ms1 = Except.ok l1) (hm : m ∉ l1) :
    removeMany l (ms1 ++ m :: ms2) = Except.error (GpError.removeAbsent m) := by
  rw [removeMany_append h, removeMany]
  have hf : removeFirst l1 m = none := by rw [removeFirst, if_neg hm]
  rw [hf]

theorem claim_C5_witness :
    removeMany ["a"] ["b"] = Except.error (GpError.removeAbsent "b") :=
  claim_C5_absent_removal_fatal ["a"] [] [] "b" ["a"] rfl (by decide)

/-- Claim C6: `load_modules` aborts at the first id with no importable unit,
reporting that id and never touching the ids after it; when every id
resolves, it returns the loaded units in input order. -/
theorem claim_C6_load_fail_fast :
    (∀ (μ : Type) (imp : String → Option μ) (pre : List String) (bad : String)
        (post : List String),
      (∀ x ∈ pre, ∃ u, imp x = some u) → imp bad = none →
      load_modules imp (pre ++ bad :: post) = Except.error bad) ∧
    (∀ (μ : Type) (f : String → μ) (ids : List String),
      load_modules (fun s => some (f s)) ids = Except.ok (ids.map f)) := by
  constructor
  · intro μ imp pre bad post hpre hbad
    induction pre with
    | nil => rw [List.nil_append, load_modules, hbad]
    | cons a pre ih =>
      obtain ⟨u, hu⟩ := hpre a (List.mem_cons_self a pre)
      rw [List.cons_append, load_modules, hu,
        ih (fun x hx => hpre x (List.mem_cons_of_mem a hx))]
      rfl
  · intro μ f ids
    induction ids with
    | nil => rfl
    | cons a ids ih =>
      rw [load_modules, ih]
      rfl

theorem claim_C6_witness :
    load_modules (fun s => if s = "unknown.module" then none else some 0)
      ["temporal.operations.timepoints", "unknown.module", "project"] =
      Except.error "unknown.module" :=
  claim_C6_load_fail_fast.1 Nat
    (fun s => if s = "unknown.module" then none else some 0)
    ["temporal.operations.timepoints"] "unknown.module" ["project"]
    (fun x hx => ⟨0, by
      cases hx with
      | head => rfl
      | tail _ hx => cases hx⟩) rfl

/-- Claim C7: `determine_modules` fails before resolving, with the
configuration error, exactly when no feature list and no scenario directory
is supplied, or when a scenario directory is supplied without a feature list
and its `features.csv` cannot be read; those are also the only error
outcomes. -/
theorem claim_C7_configuration_errors (features : Option (List String))
    (sd : Option String) (ms : Option Bool) (read : String → Option (List String))
    (probe : Option String → List String) (ps : Option String → String → List String) :
    (features = none → sd = none →
      determine_modules features sd ms read probe ps =
        Except.error GpError.missingConfig) ∧
    (∀ d, features = none → sd = some d → read d = none →
      determine_modules features sd ms read probe ps =
        Except.error GpError.featuresFileNotFound) ∧
    (∀ e, determine_modules features sd ms read probe ps = Except.error e →
      (features = none ∧ sd = none ∧ e = GpError.missingConfig) ∨
      (features = none ∧ ∃ d, sd = some d ∧ read d = none ∧
        e = GpError.featuresFileNotFound)) := by
  refine ⟨?_, ?_, ?_⟩
  · rintro rfl rfl
    rfl
  · rintro d rfl rfl hread
    show (match read d with
      | some fl => determineModulesFromFeatures fl (some d) ms probe ps
      | none => Except.error GpError.featuresFileNotFound) =
      Except.error GpError.featuresFileNotFound
    rw [hread]
  · intro e he
    cases features with
    | some F =>
      obtain ⟨l, hl, -⟩ := determineModulesFromFeatures_spec F sd ms probe ps
      have h2 : determineModulesFromFeatures F sd ms probe ps = Except.error e := he
      rw [hl] at h2
      cases h2
    | none =>
      cases sd with
      | none =>
        left
        have h0 : determine_modules none none ms read probe ps =
            (Except.error GpError.missingConfig : Except GpError (List String)) := rfl
        rw [h0] at he
        injection he with h2
        exact ⟨rfl, rfl, h2.symm⟩
      | some d =>
        right
        have h2 : (match read d with
            | some fl => determineModulesFromFeatures fl (some d) ms probe ps
            | none => Except.error GpError.featuresFileNotFound) =
            Except.error e := he
        cases hr : read d with
        | some fl =>
          rw [hr] at h2
          obtain ⟨l, hl, -⟩ := determineModulesFromFeatures_spec fl (some d) ms probe ps
          have h3 : determineModulesFromFeatures fl (some d) ms probe ps =
              Except.error e := h2
          rw [hl] at h3
          cases h3
        | none =>
          rw [hr] at h2
          injection h2 with h2
          exact ⟨rfl, d, rfl, hr, h2.symm⟩

theorem claim_C7_witness :
    determine_modules none none none (fun _ => none) (fun _ => []) (fun _ _ => []) =
      Except.error GpError.missingConfig :=
  (claim_C7_configuration_errors none none none
    (fun _ => none) (fun _ => []) (fun _ _ => [])).1 rfl rfl

/-- Claim C8: the catalog's integrity invariants hold: every module id of any
optional, cross-feature or shared-feature rule is in `all_modules_list`, the
canonical list has no duplicates, and no module id belongs to two different
optional-feature rules. -/
theorem claim_C8_catalog_invariants :
    all_modules_list.Nodup ∧
    (∀ r ∈ optional_modules_list, ∀ m ∈ r.2, m ∈ all_modules_list) ∧
    (∀ r ∈ cross_feature_modules_list, ∀ m ∈ r.2, m ∈ all_modules_list) ∧
    (∀ r ∈ feature_shared_modules_list, ∀ m ∈ r.2, m ∈ all_modules_list) ∧
    (∀ r ∈ optional_modules_list, ∀ q ∈ optional_modules_list,
      ∀ m ∈ r.2, m ∈ q.2 → r = q) := by
  refine ⟨all_modules_nodup, ?_, ?_, ?_, ?_⟩
  · intro r hr m hm
    exact ((optional_wf r hr).2 m hm).1
  · intro r hr m hm
    exact ((cross_wf r hr).2 m hm).1
  · intro r hr m hm
    exact ((shared_wf r hr).2 m hm).1
  · intro r hr q hq m hm hmq
    exact (optional_unique r hr m hm q hq hmq).symm

theorem claim_C8_witness :
    "project.operations.tuning_costs" ∈ all_modules_list :=
  claim_C8_catalog_invariants.2.1
    ("tuning",
      [ "project.operations.tuning_costs",
        "objective.project.aggregate_operational_tuning_costs" ])
    (by decide) "project.operations.tuning_costs" (by decide)

/-- Claim C9: with both an explicit feature list and a scenario directory,
`determine_modules` raises no error, the explicit list is the one used, and
the directory's `features.csv` is never read (the result does not depend on
the reader at all). -/
theorem claim_C9_explicit_features_precedence (F : List String) (d : String)
    (ms : Option Bool) (read1 read2 : String → Option (List String))
    (probe : Option String → List String) (ps : Option String → String → List String) :
    determine_modules (some F) (some d) ms read1 probe ps =
      determine_modules (some F) (some d) ms read2 probe ps ∧
    determine_modules (some F) (some d) ms read1 probe ps =
      determineModulesFromFeatures F (some d) ms probe ps ∧
    ∃ l, determine_modules (some F) (some d) ms read1 probe ps = Except.ok l := by
  refine ⟨rfl, rfl, ?_⟩
  obtain ⟨l, he, -⟩ := determineModulesFromFeatures_spec F (some d) ms probe ps
  exact ⟨l, he⟩

theorem claim_C9_witness :
    determine_modules (some fullFeatures) (some "scenario") (some true)
        (fun _ => none) (fun _ => []) (fun _ _ => []) =
      determine_modules (some fullFeatures) (some "scenario") (some true)
        (fun _ => some []) (fun _ => []) (fun _ _ => []) ∧
    determine_modules (some fullFeatures) (some "scenario") (some true)
        (fun _ => none) (fun _ => []) (fun _ _ => []) =
      determineModulesFromFeatures fullFeatures (some "scenario") (some true)
        (fun _ => []) (fun _ _ => []) ∧
    ∃ l, determine_modules (some fullFeatures) (some "scenario") (some true)
        (fun _ => none) (fun _ => []) (fun _ _ => []) = Except.ok l :=
  claim_C9_explicit_features_precedence fullFeatures "scenario" (some true)
    (fun _ => none) (fun _ => some []) (fun _ => []) (fun _ _ => [])

/-- Claim C10: with an explicit feature list, no scenario directory and
`multi_stage` unspecified, `determine_modules` still consults the layout
probe on the absent directory; whenever that probe reports no subdirectories,
the result excludes `project.operations.fix_commitment`. -/
theorem claim_C10_probe_on_missing_directory (F : List String)
    (read : String → Option (List String)) (probe : Option String → List String)
    (ps : Option String → String → List String) (hprobe : probe none = []) :
    ∃ l, determine_modules (some F) none none read probe ps = Except.ok l ∧
      sentinelModule ∉ l := by
  obtain ⟨l, he, -, -, hmem⟩ := determineModulesFromFeatures_spec F none none probe ps
  refine ⟨l, he, fun hs => ?_⟩
  have hbad := ((hmem sentinelModule).mp hs).2.1 rfl
  rw [effectiveMultiStage, hprobe] at hbad
  cases hbad

theorem claim_C10_witness :
    ∃ l, determine_modules (some []) none none
        (fun _ => none) (fun _ => []) (fun _ _ => []) = Except.ok l ∧
      sentinelModule ∉ l :=
  claim_C10_probe_on_missing_directory [] (fun _ => none) (fun _ => []) (fun _ _ => []) rfl
